import Mathlib

/-!
Verification development for the URL normalization pipeline
(`Packs/CommonScripts/Scripts/ExtractURL/ExtractURL.py`).

Strings are embedded as `List Char`; each Python function used by the
pipeline is translated into a total Lean function of the same name
(with an `L` suffix for the `List Char` versions).  Standard-library
helpers that are not part of the repository (percent decoding, HTML
unescaping, query parsing, the regex engine) are modelled from the
specification's description of them; the repository's own functions
are translated line by line from the source.
-/

/-- Python `str.startswith`: whether `p` is an initial segment of `s`. -/
def startsWithL : List Char → List Char → Bool
  | [], _ => true
  | c :: ps, s =>
    match s with
    | [] => false
    | d :: ss => (c == d) && startsWithL ps ss

/-- A Python word character as used by the regex `\w` (ASCII model). -/
def wordChar (c : Char) : Bool :=
  c.isAlphanum || c = '_'

/-- Python `str.lower` (ASCII model, matching the ASCII prefixes it is compared with). -/
def lowerL (s : List Char) : List Char :=
  s.map Char.toLower

/-- Whether `pat` occurs as a contiguous substring of `s`. -/
def containsSub : List Char → List Char → Bool
  | [], pat => pat.isEmpty
  | c :: cs, pat => startsWithL pat (c :: cs) || containsSub cs pat

/-- Python `str.replace` with an empty pattern: `new` is inserted at every position. -/
def replEmpty (new : List Char) : List Char → List Char
  | [] => new
  | c :: cs => new ++ c :: replEmpty new cs

/-- Core of Python `str.replace` for a non-empty pattern `old`: scans left to
right, replacing each non-overlapping occurrence of `old` by `new`.  The `Nat`
argument counts characters still to be skipped after a replacement. -/
def replAux (old new : List Char) : Nat → List Char → List Char
  | _, [] => []
  | Nat.succ k, _ :: cs => replAux old new k cs
  | 0, c :: cs =>
    if startsWithL old (c :: cs) then new ++ replAux old new (old.length - 1) cs
    else c :: replAux old new 0 cs

/-- Python `str.replace(old, new)`. -/
def pyReplaceL (s old new : List Char) : List Char :=
  if old.isEmpty then replEmpty new s else replAux old new 0 s

/-- Hexadecimal digit test, as accepted by percent decoding. -/
def isHexDigit (c : Char) : Bool :=
  c.isDigit || ('a' ≤ c && c ≤ 'f') || ('A' ≤ c && c ≤ 'F')

/-- Value of a hexadecimal digit. -/
def hexVal (c : Char) : Nat :=
  if c.isDigit then c.toNat - 48
  else if 'a' ≤ c && c ≤ 'f' then c.toNat - 87
  else c.toNat - 55

/-- Modelled from the spec: standard URL percent decoding
(`urllib.parse.unquote`, whose source is not part of this repository).
Every valid `%XX` hexadecimal escape becomes the character with that code;
invalid escapes are left untouched. -/
def unquoteL : List Char → List Char
  | [] => []
  | '%' :: a :: b :: rest =>
    if isHexDigit a && isHexDigit b then
      Char.ofNat (16 * hexVal a + hexVal b) :: unquoteL rest
    else '%' :: unquoteL (a :: b :: rest)
  | c :: cs => c :: unquoteL cs

/-- Modelled from the spec: HTML entity unescaping (`html.unescape`, whose
source is not part of this repository).  Decodes the core named entities the
spec describes (`&amp;`, `&lt;`, `&gt;`, `&quot;`); text without an ampersand
is returned unchanged. -/
def unescapeL : List Char → List Char
  | [] => []
  | '&' :: 'a' :: 'm' :: 'p' :: ';' :: rest => '&' :: unescapeL rest
  | '&' :: 'l' :: 't' :: ';' :: rest => '<' :: unescapeL rest
  | '&' :: 'g' :: 't' :: ';' :: rest => '>' :: unescapeL rest
  | '&' :: 'q' :: 'u' :: 'o' :: 't' :: ';' :: rest => '"' :: unescapeL rest
  | c :: cs => c :: unescapeL cs

/-- Python `'+' → ' '` pre-step of `urllib.parse.unquote_plus`. -/
def plusToSpace (s : List Char) : List Char :=
  s.map (fun c => if c = '+' then ' ' else c)

/-- Modelled from the spec: `urllib.parse.unquote_plus` (plus-to-space, then
percent decoding), used by query-string parsing. -/
def unquotePlus (s : List Char) : List Char :=
  unquoteL (plusToSpace s)

/-- Everything after the first occurrence of `'?'` (empty if there is none). -/
def afterQn : List Char → List Char
  | [] => []
  | c :: cs => if c = '?' then cs else afterQn cs

/-- Modelled from the spec: the query component of `urllib.parse.urlparse`
(whose source is not part of this repository): the text after the first `'?'`
that precedes the first `'#'`. -/
def getQueryL (s : List Char) : List Char :=
  afterQn (s.takeWhile (fun c => c ≠ '#'))

/-- Split a character list on a separator character (Python `str.split(sep)`). -/
def splitOnChar (sep : Char) : List Char → List (List Char)
  | [] => [[]]
  | c :: cs =>
    if c = sep then [] :: splitOnChar sep cs
    else
      match splitOnChar sep cs with
      | [] => [[c]]
      | g :: gs => (c :: g) :: gs

/-- Split a pair at its first `'='` into name and value (Python `split('=', 1)`). -/
def splitEq : List Char → Option (List Char × List Char)
  | [] => none
  | c :: cs =>
    if c = '=' then some ([], cs)
    else
      match splitEq cs with
      | none => none
      | some (n, v) => some (c :: n, v)

/-- Modelled from the spec: the values listed for one parameter by
`urllib.parse.parse_qs` (whose source is not part of this repository):
pairs are split on `'&'`, pairs without `'='` or with a blank raw value are
skipped, names and values are plus/percent decoded, and the values whose
decoded name equals `key` are returned in order of appearance. -/
def parseQsGet (query key : List Char) : List (List Char) :=
  (splitOnChar '&' query).filterMap fun pair =>
    match splitEq pair with
    | none => none
    | some (n, v) =>
      if v.isEmpty then none
      else if unquotePlus n = key then some (unquotePlus v) else none

/-- The literal host part of `ATP_REGEX`. -/
def atpLit : List Char :=
  ".safelinks.protection.outlook.com/".data

/-- The `.*\?url=` tail of `ATP_REGEX`: `"?url="` must occur before the first newline. -/
def atpTailOk (r : List Char) : Bool :=
  containsSub (r.takeWhile (fun c => c ≠ '\n')) ("?url=".data)

/-- Match of `\w*\.safelinks\.protection\.outlook\.com/.*\?url=` at the head of `r`. -/
def atpFrom (r : List Char) : Bool :=
  startsWithL atpLit (r.dropWhile wordChar) &&
    atpTailOk ((r.dropWhile wordChar).drop atpLit.length)

/-- `re.match(ATP_REGEX, s)` for
`(https://\w*|\w*)\.safelinks\.protection\.outlook\.com/.*\?url=` (line 9). -/
def atpMatchL (s : List Char) : Bool :=
  (startsWithL ("https://".data) s && atpFrom (s.drop 8)) || atpFrom s

/-- The `(v[0-9])/` tail of `PROOF_POINT_URL_REG`; returns the version digit. -/
def ppVersionPart : List Char → Option Char
  | 'v' :: d :: '/' :: _ => if d.isDigit then some d else none
  | _ => none

/-- Match of `PROOF_POINT_URL_REG` at the head of `s`
(`https://urldefense(?:\.proofpoint)?\.(com|us)/(v[0-9])/`, line 10),
returning the captured version digit. -/
def ppAtL (s : List Char) : Option Char :=
  if startsWithL ("https://urldefense".data) s then
    let r := s.drop 18
    let r2 := if startsWithL (".proofpoint".data) r then r.drop 11 else r
    if startsWithL (".com/".data) r2 then ppVersionPart (r2.drop 5)
    else if startsWithL (".us/".data) r2 then ppVersionPart (r2.drop 4)
    else none
  else none

/-- `re.search(PROOF_POINT_URL_REG, s)`: leftmost match, captured version digit. -/
def ppSearchL : List Char → Option Char
  | [] => none
  | c :: cs =>
    match ppAtL (c :: cs) with
    | some d => some d
    | none => ppSearchL cs

/-- Condition for the ProofPoint v3 regex `v3/__(?P<url>.+?)__;(?P<enc_bytes>.*?)!`
to succeed with a url group of length `k` (after the `v3/__` anchor): `k ≥ 1`,
`"__;"` follows, no newline inside the group, and a `'!'` occurs after the
`"__;"` before any newline. -/
def v3CondAt (rest : List Char) (k : Nat) : Bool :=
  decide (1 ≤ k) && startsWithL ("__;".data) (rest.drop k) &&
    !((rest.take k).contains '\n') &&
    ((rest.drop (k + 3)).takeWhile (fun c => c ≠ '\n')).contains '!'

/-- Shortest url group accepted by the v3 regex after a `v3/__` anchor
(the lazy `.+?` tries lengths in increasing order). -/
def v3At (rest : List Char) : Option (List Char) :=
  (List.range (rest.length + 1)).findSome? fun k =>
    if v3CondAt rest k then some (rest.take k) else none

/-- `re.search` for the v3 regex (line 53): leftmost `v3/__` anchor from which
the rest of the pattern succeeds, returning the url group. -/
def v3Scan : List Char → Option (List Char)
  | [] => none
  | c :: cs =>
    match (if startsWithL ("v3/__".data) (c :: cs) then v3At ((c :: cs).drop 5) else none) with
    | some u => some u
    | none => v3Scan cs

/-- Diagnostic notes emitted on the logging side channel
(`demisto.error` / `demisto.debug`). -/
inductive Diag where
  | errNote : Diag
  | debugNote : Diag
deriving DecidableEq, Repr

/-- `get_redirect_url_from_query` (lines 61-79): looks the redirect parameter
up in the parsed query; if absent, returns the original URL with one error
note; if several values are present, returns the first with one debug note. -/
def get_redirect_url_from_query (non_formatted_url query param : List Char) :
    List Char × List Diag :=
  match parseQsGet query param with
  | [] => (non_formatted_url, [Diag.errNote])
  | [v] => (v, [])
  | v :: _ :: _ => (v, [Diag.debugNote])

/-- The character substitution of `str.maketrans('-_', '%/')` (line 39). -/
def translateDashUnderscore (s : List Char) : List Char :=
  s.map (fun c => if c = '-' then '%' else if c = '_' then '/' else c)

/-- `get_redirect_url_proof_point_v2` (lines 28-41): extracts the `u` query
parameter and then maps `'-' → '%'` and `'_' → '/'` character-wise. -/
def get_redirect_url_proof_point_v2 (non_formatted_url query : List Char) :
    List Char × List Diag :=
  let r := get_redirect_url_from_query non_formatted_url query ("u".data)
  (translateDashUnderscore r.1, r.2)

/-- `get_redirect_url_proof_point_v3` (lines 44-58): extracts the url group of
the v3 regex, or returns the original with one error note. -/
def get_redirect_url_proof_point_v3 (non_formatted_url : List Char) :
    List Char × List Diag :=
  match v3Scan non_formatted_url with
  | some u => (u, [])
  | none => (non_formatted_url, [Diag.errNote])

/-- `PREFIX_TO_NORMALIZE` (lines 12-16).  The Python literal is a set; its
iteration order does not affect the result because the three tokens are
pairwise distinct four-character strings and replacing one by `http` leaves a
string that starts with none of them. -/
def PREFIX_TO_NORMALIZE : List (List Char) :=
  ["hxxp".data, "meow".data, "hXXp".data]

/-- `PREFIX_CHANGES` (lines 18-25): ordered (starts-with, does-not-start-with,
replacement) rules. -/
def PREFIX_CHANGES : List (List Char × Option (List Char) × List Char) :=
  [("https:/".data, some ("https://".data), "https://".data),
   ("http:/".data, some ("http://".data), "http://".data),
   ("https:\\".data, some ("https:\\\\".data), "https://".data),
   ("http:\\".data, some ("http:\\\\".data), "http://".data),
   ("https:\\\\".data, none, "https://".data),
   ("http:\\\\".data, none, "http://".data)]

/-- First loop of `replace_protocol` (lines 91-93): each obfuscation token
that the current string starts with is replaced (at every occurrence) by
`http`. -/
def tokenPass (u : List Char) : List Char :=
  PREFIX_TO_NORMALIZE.foldl
    (fun acc tok => if startsWithL tok acc then pyReplaceL acc tok ("http".data) else acc) u

/-- The condition of one `PREFIX_CHANGES` rule, evaluated against the frozen
lowercase copy (line 96-97). -/
def ruleCond (low : List Char) (rule : List Char × Option (List Char) × List Char) : Bool :=
  startsWithL rule.1 low &&
    (match rule.2.1 with
     | none => true
     | some d => !(startsWithL d low))

/-- Second loop of `replace_protocol` (lines 94-98): the lowercase copy is
computed once; every rule whose condition holds on it replaces (at every
occurrence, case-sensitively) its prefix in the accumulated string. -/
def rulePass (u : List Char) : List Char :=
  PREFIX_CHANGES.foldl
    (fun acc rule => if ruleCond (lowerL u) rule then pyReplaceL acc rule.1 rule.2.2 else acc) u

/-- `replace_protocol` (lines 82-99). -/
def replace_protocolL (u : List Char) : List Char :=
  rulePass (tokenPass u)

/-- `format_url`'s wrapper-unwrapping stage (lines 111-121), with the
diagnostics it emits. -/
def stage1 (s : List Char) : List Char × List Diag :=
  let q := getQueryL s
  if atpMatchL s then get_redirect_url_from_query s q ("url".data)
  else
    match ppSearchL s with
    | some d =>
      if d = '3' then get_redirect_url_proof_point_v3 s
      else if d = '2' then get_redirect_url_proof_point_v2 s q
      else get_redirect_url_from_query s q ("u".data)
    | none => (s, [])

/-- `format_url` (lines 102-125): wrapper unwrapping, then
`unquote(unescape(url.replace('[.]', '.')))`, then `replace_protocol`. -/
def format_urlL (non_formatted_url : List Char) : List Char :=
  let q := getQueryL non_formatted_url
  let u1 :=
    if atpMatchL non_formatted_url then
      (get_redirect_url_from_query non_formatted_url q ("url".data)).1
    else
      match ppSearchL non_formatted_url with
      | some d =>
        if d = '3' then (get_redirect_url_proof_point_v3 non_formatted_url).1
        else if d = '2' then (get_redirect_url_proof_point_v2 non_formatted_url q).1
        else (get_redirect_url_from_query non_formatted_url q ("u".data)).1
      | none => non_formatted_url
  replace_protocolL (unquoteL (unescapeL (pyReplaceL u1 ("[.]".data) (".".data))))

/-- `format_url` on `String`. -/
def format_url (s : String) : String :=
  String.mk (format_urlL s.data)

/-- `replace_protocol` on `String`. -/
def replace_protocol (s : String) : String :=
  String.mk (replace_protocolL s.data)

/-- `expand_url` (lines 128-144).  The network hop `urlopen(url, timeout=1).url`
is modelled by an oracle `fetch`: `some r` is a successful fetch resolving to
`r`, `none` is any of the transport failures the function catches
(`HTTPError`, `ValueError`, `URLError`); in either case the function returns
normally. -/
def expand_url (fetch : String → Option String) (formatted_url : String) : Finset String :=
  match fetch formatted_url with
  | some expanded => {formatted_url, expanded}
  | none => {formatted_url}

/-- A dynamically typed Python value flowing through `main`: a string or a set
of strings. -/
inductive PyVal where
  | str : String → PyVal
  | strSet : Finset String → PyVal

/-- Outcome of one invocation: a reported result (`demisto.results`) or a
structured error report (`return_error`). -/
inductive MainOutcome where
  | results : PyVal → MainOutcome
  | errorReport : MainOutcome

/-- `format_url` as called dynamically by `main`: on a string it formats; on a
set, `urlparse` (line 111) raises, which `main` turns into an error report. -/
def format_url_dyn : PyVal → Except Unit PyVal
  | PyVal.str s => Except.ok (PyVal.str (format_url s))
  | PyVal.strSet _ => Except.error ()

/-- `main` (lines 147-152): it computes `format_url(expand_url(input))` —
`expand_url` on the raw input string, then `format_url` on the resulting set —
and reports the value on success or an error report on any exception. -/
def main_model (fetch : String → Option String) (input : String) : MainOutcome :=
  match format_url_dyn (PyVal.strSet (expand_url fetch input)) with
  | Except.ok v => MainOutcome.results v
  | Except.error _ => MainOutcome.errorReport

/-- The pipeline as the spec's sentence for claim C3 reads it: the bracket-dot
replacement applied to the raw input prior to any other transform, followed by
the rest of the pipeline. -/
def spec_bracket_first (s : List Char) : List Char :=
  format_urlL (pyReplaceL s ("[.]".data) (".".data))

/-- `spec_bracket_first` on `String`. -/
def spec_bracket_first_s (s : String) : String :=
  String.mk (spec_bracket_first s.data)

/-! ### Helper lemmas -/

/-- `startsWithL` agrees with the prefix relation. -/
theorem startsWithL_iff (p s : List Char) : startsWithL p s = true ↔ p <+: s := by
  induction p generalizing s with
  | nil => simp [startsWithL]
  | cons c ps ih =>
    cases s with
    | nil => simp [startsWithL]
    | cons d ss =>
      simp [startsWithL, ih, List.cons_prefix_cons, beq_iff_eq, and_comm]

/-- Two incomparable patterns cannot both be prefixes of the same string. -/
theorem not_both_prefixes {p q s : List Char} (hpq : startsWithL p q = false)
    (hqp : startsWithL q p = false) (hp : startsWithL p s = true)
    (hq : startsWithL q s = true) : False := by
  have h1 := (startsWithL_iff p s).1 hp
  have h2 := (startsWithL_iff q s).1 hq
  rcases List.prefix_or_prefix_of_prefix h1 h2 with h | h
  · rw [(startsWithL_iff p q).2 h] at hpq
    exact Bool.true_eq_false.mp hpq
  · rw [(startsWithL_iff q p).2 h] at hqp
    exact Bool.true_eq_false.mp hqp

/-- A prefix of a prefix is a prefix. -/
theorem startsWithL_trans {p q s : List Char} (hpq : startsWithL p q = true)
    (hq : startsWithL q s = true) : startsWithL p s = true :=
  (startsWithL_iff p s).2 (((startsWithL_iff p q).1 hpq).trans ((startsWithL_iff q s).1 hq))

/-- `replAux` leaves a string without occurrences of the pattern unchanged. -/
theorem replAux_no_occurrence (old new : List Char) (s : List Char)
    (h : containsSub s old = false) : replAux old new 0 s = s := by
  induction s with
  | nil => rfl
  | cons c cs ih =>
    simp only [containsSub, Bool.or_eq_false_iff] at h
    simp [replAux, h.1, ih h.2]

/-- `unescapeL` leaves a string without ampersands unchanged. -/
theorem unescape_no_amp (s : List Char) (h : s.contains '&' = false) : unescapeL s = s := by
  induction s using unescapeL.induct with
  | case1 => rfl
  | case2 rest ih => simp at h
  | case3 rest ih => simp at h
  | case4 rest ih => simp at h
  | case5 rest ih => simp at h
  | case6 c cs h1 h2 h3 h4 ih =>
    simp only [List.contains_cons, Bool.or_eq_false_iff] at h
    rw [unescapeL.eq_6 c cs h1 h2 h3 h4, ih h.2]

/-- `unquoteL` leaves a string without percent signs unchanged. -/
theorem unquote_no_pct (s : List Char) (h : s.contains '%' = false) : unquoteL s = s := by
  induction s using unquoteL.induct with
  | case1 => rfl
  | case2 a b rest hhex ih => simp at h
  | case3 a b rest hhex ih => simp at h
  | case4 c cs h1 ih =>
    simp only [List.contains_cons, Bool.or_eq_false_iff] at h
    rw [unquoteL.eq_3 c cs h1, ih h.2]

/-- `replace_protocol` leaves a string that already starts with `http://` unchanged. -/
theorem replace_protocol_http_id (t : List Char) :
    replace_protocolL ("http://".data ++ t) = "http://".data ++ t := rfl

/-- `replace_protocol` leaves a string that already starts with `https://` unchanged. -/
theorem replace_protocol_https_id (t : List Char) :
    replace_protocolL ("https://".data ++ t) = "https://".data ++ t := rfl

/-! ### Claims -/

/-- Claim C1: the spec says `main` first normalizes the input and then resolves
redirects on the formatted URL, reporting a non-empty set of one or two URLs on
success.  The code composes the stages the other way round
(`format_url(expand_url(input))`, line 149): `expand_url` runs on the raw input
and `format_url` then receives a set of strings, on which `urlparse` raises, so
every invocation ends in the error report and never in a result set. -/
theorem claim_C1_main_composes_stages_backwards :
    ∀ (fetch : String → Option String) (input : String),
      main_model fetch input = MainOutcome.errorReport :=
  fun _ _ => rfl

/-- Claim C2, counterexample: on the defanged Safe-Link input the pipeline does
not produce `http://bar.com`. -/
theorem claim_C2_counterexample :
    format_url "hxxps://foo[.]safelinks[.]protection[.]outlook[.]com/?url=http%3A%2F%2Fbar.com" ≠
      "http://bar.com" := by decide

/-- Claim C2, amended: wrapper matching (line 112) runs before the bracket-dot
replacement (line 123), so the defanged host never matches `ATP_REGEX` and the
wrapper is not unwrapped; only escape and protocol normalization apply. -/
theorem claim_C2_defanged_wrapper_not_unwrapped :
    format_url "hxxps://foo[.]safelinks[.]protection[.]outlook[.]com/?url=http%3A%2F%2Fbar.com" =
      "https://foo.safelinks.protection.outlook.com/?url=http://bar.com" := by decide

/-- Claim C3, counterexample: the bracket-dot replacement is not applied prior
to every other transform of the pipeline — on this input the wrapper stage runs
first, and the result differs from the bracket-first reading of the spec. -/
theorem claim_C3_counterexample :
    format_url "https://x[.]safelinks[.]protection[.]outlook[.]com/?url=http%3A%2F%2Fevil.org" ≠
      spec_bracket_first_s "https://x[.]safelinks[.]protection[.]outlook[.]com/?url=http%3A%2F%2Fevil.org" := by
  decide

/-- Claim C3, amended: within the escape-normalization stage (line 123) the
bracket-dot replacement comes first, followed by HTML unescaping, followed by
percent decoding, applied to the wrapper stage's output; in particular
`hxxp://evil[.]com/a` normalizes to `http://evil.com/a`. -/
theorem claim_C3_escape_stage_order :
    (∀ s : List Char,
      format_urlL s =
        replace_protocolL (unquoteL (unescapeL (pyReplaceL (stage1 s).1 ("[.]".data) (".".data))))) ∧
    format_url "hxxp://evil[.]com/a" = "http://evil.com/a" := by
  constructor
  · intro s
    unfold format_urlL stage1
    cases h : atpMatchL s
    · cases hp : ppSearchL s
      · simp [h, hp]
      · simp only [h, hp]
        simp only [apply_ite Prod.fst]
    · simp [h]
  · decide

/-- Claim C6: the protocol-repair pass maps `http:/example.com` and
`http:\\example.com` to `http://example.com`, normalizes `hxxps://example.com`
to `https://example.com`, and leaves the well-formed `https://example.com`
unchanged. -/
theorem claim_C6_protocol_repair_examples :
    replace_protocol "http:/example.com" = "http://example.com" ∧
    replace_protocol "http:\\\\example.com" = "http://example.com" ∧
    replace_protocol "hxxps://example.com" = "https://example.com" ∧
    replace_protocol "https://example.com" = "https://example.com" := by
  refine ⟨by decide, by decide, by decide, by decide⟩

/-- Claim C8: redirect resolution (modelled with a fetch oracle standing for
`urlopen`) returns normally in every case: on failure the set holding only
the formatted URL, on success the pair of formatted and resolved URL, which
collapses to one element when they coincide. -/
theorem claim_C8_expand_url_degrades :
    ∀ (fetch : String → Option String) (u : String),
      (fetch u = none → expand_url fetch u = {u}) ∧
      (∀ r, fetch u = some r → expand_url fetch u = {u, r}) ∧
      (fetch u = some u → expand_url fetch u = {u}) := by
  intro fetch u
  refine ⟨fun h => by simp [expand_url, h], fun r h => by simp [expand_url, h], fun h => ?_⟩
  simp [expand_url, h]

/-- Witness for claim C8 at a concrete oracle and URL. -/
theorem claim_C8_expand_url_degrades_witness :
    expand_url (fun s => if s = "http://a.com" then some "http://b.com" else none) "http://a.com" =
      {"http://a.com", "http://b.com"} ∧
    expand_url (fun _ => none) "http://a.com" = {"http://a.com"} :=
  ⟨(claim_C8_expand_url_degrades _ "http://a.com").2.1 "http://b.com" rfl,
   (claim_C8_expand_url_degrades (fun _ => none) "http://a.com").1 rfl⟩

/-- Claim C10: on a ProofPoint v2 wrapper URL whose query has no `u` parameter,
the wrapper stage does not pass the URL through unchanged — the character
substitution (`'-' → '%'`, `'_' → '/'`) is applied to the fallback original
string, alongside the missing-parameter diagnostic. -/
theorem claim_C10_v2_translates_fallback :
    ∀ u : List Char, atpMatchL u = false → ppSearchL u = some '2' →
      parseQsGet (getQueryL u) ("u".data) = [] →
      stage1 u = (translateDashUnderscore u, [Diag.errNote]) := by
  intro u h1 h2 h3
  simp [stage1, h1, h2, get_redirect_url_proof_point_v2, get_redirect_url_from_query, h3]

/-- Witness for claim C10 at a concrete v2 URL without a `u` parameter. -/
theorem claim_C10_v2_translates_fallback_witness :
    atpMatchL ("https://urldefense.com/v2/a-b_c".data) = false ∧
    ppSearchL ("https://urldefense.com/v2/a-b_c".data) = some '2' ∧
    parseQsGet (getQueryL ("https://urldefense.com/v2/a-b_c".data)) ("u".data) = [] ∧
    stage1 ("https://urldefense.com/v2/a-b_c".data) =
      (translateDashUnderscore ("https://urldefense.com/v2/a-b_c".data), [Diag.errNote]) :=
  ⟨by decide, by decide, by decide,
   claim_C10_v2_translates_fallback _ (by decide) (by decide) (by decide)⟩

/-- Claim C5, counterexample: token matching is case-sensitive, so the casing
`HXXPs://` is not normalized at all. -/
theorem claim_C5_counterexample :
    replace_protocol "HXXPs://example.com" = "HXXPs://example.com" ∧
    ("HXXPs://example.com" : String) ≠ "https://example.com" :=
  ⟨by decide, by decide⟩

/-- Claim C5, amended: only the exact configured tokens (`hxxp`, `hXXp`,
`meow`) are recognized, by a case-sensitive starts-with test, and every
occurrence of the matched token is then replaced by `http`; in particular a URL
beginning `hxxps://` whose remainder does not contain the token again becomes
`https://` followed by the unchanged remainder. -/
theorem claim_C5_exact_token_replacement :
    ∀ rest : List Char, containsSub rest ("hxxp".data) = false →
      replace_protocolL ("hxxps://".data ++ rest) = "https://".data ++ rest := by
  intro rest h
  have e : replace_protocolL ("hxxps://".data ++ rest) =
      "https://".data ++ replAux ("hxxp".data) ("http".data) 0 rest := rfl
  rw [e, replAux_no_occurrence _ _ _ h]

/-- Witness for claim C5 at a concrete remainder. -/
theorem claim_C5_exact_token_replacement_witness :
    containsSub ("example.com".data) ("hxxp".data) = false ∧
    replace_protocolL ("hxxps://".data ++ "example.com".data) =
      "https://".data ++ "example.com".data :=
  ⟨by decide, claim_C5_exact_token_replacement _ (by decide)⟩

/-- Claim C9: generic query-parameter extraction never fails: with the
parameter absent from the parsed query it returns the original URL with exactly
one (error-level) diagnostic, and with several values present it returns the
first value with one (debug-level) diagnostic about the discarded duplicates. -/
theorem claim_C9_query_extraction_fallbacks :
    (∀ u : List Char, atpMatchL u = true →
      parseQsGet (getQueryL u) ("url".data) = [] →
      get_redirect_url_from_query u (getQueryL u) ("url".data) = (u, [Diag.errNote])) ∧
    (∀ (u q v1 v2 : List Char) (vs : List (List Char)),
      parseQsGet q ("url".data) = v1 :: v2 :: vs →
      get_redirect_url_from_query u q ("url".data) = (v1, [Diag.debugNote])) := by
  constructor
  · intro u _ h2
    simp [get_redirect_url_from_query, h2]
  · intro u q v1 v2 vs h
    simp [get_redirect_url_from_query, h]

/-- Witness for claim C9: a Safe-Link URL whose `url` value is blank (so the
parsed query has no `url` entry), and a query with two `url` values. -/
theorem claim_C9_query_extraction_fallbacks_witness :
    atpMatchL ("https://a.safelinks.protection.outlook.com/?url=".data) = true ∧
    parseQsGet (getQueryL ("https://a.safelinks.protection.outlook.com/?url=".data))
      ("url".data) = [] ∧
    get_redirect_url_from_query ("https://a.safelinks.protection.outlook.com/?url=".data)
      (getQueryL ("https://a.safelinks.protection.outlook.com/?url=".data)) ("url".data) =
      ("https://a.safelinks.protection.outlook.com/?url=".data, [Diag.errNote]) ∧
    parseQsGet ("url=a&url=b".data) ("url".data) = ["a".data, "b".data] ∧
    get_redirect_url_from_query ("zz".data) ("url=a&url=b".data) ("url".data) =
      ("a".data, [Diag.debugNote]) :=
  ⟨by decide, by decide,
   claim_C9_query_extraction_fallbacks.1 _ (by decide) (by decide),
   by decide,
   claim_C9_query_extraction_fallbacks.2 ("zz".data) ("url=a&url=b".data) ("a".data)
     ("b".data) [] (by decide)⟩

/-- Claim C4, counterexample: on `http://a.com/%2525` the pipeline's output
`http://a.com/%25` matches no wrapper pattern, yet a second pass decodes the
remaining escape and yields `http://a.com/%`, so the pipeline is not idempotent
on this non-wrapped output. -/
theorem claim_C4_counterexample :
    atpMatchL (format_urlL ("http://a.com/%2525".data)) = false ∧
    ppSearchL (format_urlL ("http://a.com/%2525".data)) = none ∧
    format_url (format_url "http://a.com/%2525") ≠ format_url "http://a.com/%2525" :=
  ⟨by decide, by decide, by decide⟩

/-- Claim C4, amended: the pipeline is idempotent on an output that matches no
wrapper pattern and that the escape and protocol passes can no longer rewrite:
one containing no `[.]`, no ampersand and no percent sign, and beginning with a
well-formed `http://` or `https://`. -/
theorem claim_C4_idempotent_on_clean_output :
    ∀ x : List Char,
      atpMatchL (format_urlL x) = false →
      ppSearchL (format_urlL x) = none →
      containsSub (format_urlL x) ("[.]".data) = false →
      (format_urlL x).contains '&' = false →
      (format_urlL x).contains '%' = false →
      (startsWithL ("http://".data) (format_urlL x) ||
        startsWithL ("https://".data) (format_urlL x)) = true →
      format_urlL (format_urlL x) = format_urlL x := by
  intro x h1 h2 h3 h4 h5 h6
  set y := format_urlL x with hy
  have step1 : format_urlL y =
      replace_protocolL (unquoteL (unescapeL (pyReplaceL y ("[.]".data) (".".data)))) := by
    unfold format_urlL
    simp [h1, h2]
  have step2 : pyReplaceL y ("[.]".data) (".".data) = y := by
    simp only [pyReplaceL, List.isEmpty_cons, Bool.false_eq_true, if_false]
    exact replAux_no_occurrence _ _ _ h3
  have step3 : unescapeL y = y := unescape_no_amp y h4
  have step4 : unquoteL y = y := unquote_no_pct y h5
  have step5 : replace_protocolL y = y := by
    cases ha : startsWithL ("http://".data) y with
    | true =>
      obtain ⟨t, ht⟩ := (startsWithL_iff _ _).1 ha
      rw [← ht]
      exact replace_protocol_http_id t
    | false =>
      rw [ha] at h6
      have hb : startsWithL ("https://".data) y = true := by simpa using h6
      obtain ⟨t, ht⟩ := (startsWithL_iff _ _).1 hb
      rw [← ht]
      exact replace_protocol_https_id t
  rw [step1, step2, step3, step4, step5]

/-- Witness for claim C4 at a concrete clean input. -/
theorem claim_C4_idempotent_on_clean_output_witness :
    atpMatchL (format_urlL ("http://example.com".data)) = false ∧
    ppSearchL (format_urlL ("http://example.com".data)) = none ∧
    containsSub (format_urlL ("http://example.com".data)) ("[.]".data) = false ∧
    (format_urlL ("http://example.com".data)).contains '&' = false ∧
    (format_urlL ("http://example.com".data)).contains '%' = false ∧
    (startsWithL ("http://".data) (format_urlL ("http://example.com".data)) ||
      startsWithL ("https://".data) (format_urlL ("http://example.com".data))) = true ∧
    format_urlL (format_urlL ("http://example.com".data)) = format_urlL ("http://example.com".data) :=
  ⟨by decide, by decide, by decide, by decide, by decide, by decide,
   claim_C4_idempotent_on_clean_output _ (by decide) (by decide) (by decide) (by decide)
     (by decide) (by decide)⟩

/-- Claim C7, counterexample: the fired rule's substitution is a global
replace, not a rewrite of the leading token only — the second occurrence of
`http:/` after the query separator is rewritten as well. -/
theorem claim_C7_counterexample :
    replace_protocol "http:/a?u=http:/b" = "http://a?u=http://b" ∧
    replace_protocol "http:/a?u=http:/b" ≠ "http://a?u=http:/b" :=
  ⟨by decide, by decide⟩

/-- Claim C7, amended: in the slash/backslash pass at most one rule's condition
holds (the conditions, all evaluated against the one frozen lowercase copy, are
mutually exclusive), so the pass equals applying the first — and only —
matching rule once; that rule's substitution replaces every occurrence of its
prefix token in the string, not only the leading one. -/
theorem claim_C7_single_rule_fires :
    ∀ u : List Char,
      (PREFIX_CHANGES.filter (fun r => ruleCond (lowerL u) r)).length ≤ 1 ∧
      rulePass u = (match PREFIX_CHANGES.find? (fun r => ruleCond (lowerL u) r) with
                    | some r => pyReplaceL u r.1 r.2.2
                    | none => u) := by
  intro u
  have nb : ∀ p q : List Char, startsWithL p q = false → startsWithL q p = false →
      startsWithL p (lowerL u) = true → startsWithL q (lowerL u) = false := by
    intro p q hpq hqp hp
    cases hc : startsWithL q (lowerL u) with
    | false => rfl
    | true => exact (not_both_prefixes hpq hqp hp hc).elim
  cases hp1 : startsWithL ("https:/".data) (lowerL u) with
  | true =>
    have hp2 := nb ("https:/".data) ("http:/".data) (by decide) (by decide) hp1
    have hp3 := nb ("https:/".data) ("https:\\".data) (by decide) (by decide) hp1
    have hp4 := nb ("https:/".data) ("http:\\".data) (by decide) (by decide) hp1
    have hp5 := nb ("https:/".data) ("https:\\\\".data) (by decide) (by decide) hp1
    have hp6 := nb ("https:/".data) ("http:\\\\".data) (by decide) (by decide) hp1
    cases hq1 : startsWithL ("https://".data) (lowerL u) with
    | true =>
      simp [rulePass, PREFIX_CHANGES, ruleCond, List.filter, List.find?, List.foldl,
        hp1, hp2, hp3, hp4, hp5, hp6, hq1]
    | false =>
      simp [rulePass, PREFIX_CHANGES, ruleCond, List.filter, List.find?, List.foldl,
        hp1, hp2, hp3, hp4, hp5, hp6, hq1]
  | false =>
    cases hp2 : startsWithL ("http:/".data) (lowerL u) with
    | true =>
      have hp3 := nb ("http:/".data) ("https:\\".data) (by decide) (by decide) hp2
      have hp4 := nb ("http:/".data) ("http:\\".data) (by decide) (by decide) hp2
      have hp5 := nb ("http:/".data) ("https:\\\\".data) (by decide) (by decide) hp2
      have hp6 := nb ("http:/".data) ("http:\\\\".data) (by decide) (by decide) hp2
      cases hq2 : startsWithL ("http://".data) (lowerL u) with
      | true =>
        simp [rulePass, PREFIX_CHANGES, ruleCond, List.filter, List.find?, List.foldl,
          hp1, hp2, hp3, hp4, hp5, hp6, hq2]
      | false =>
        simp [rulePass, PREFIX_CHANGES, ruleCond, List.filter, List.find?, List.foldl,
          hp1, hp2, hp3, hp4, hp5, hp6, hq2]
    | false =>
      cases hp3 : startsWithL ("https:\\".data) (lowerL u) with
      | true =>
        have hp4 := nb ("https:\\".data) ("http:\\".data) (by decide) (by decide) hp3
        have hp6 := nb ("https:\\".data) ("http:\\\\".data) (by decide) (by decide) hp3
        cases hp5 : startsWithL ("https:\\\\".data) (lowerL u) with
        | true =>
          simp [rulePass, PREFIX_CHANGES, ruleCond, List.filter, List.find?, List.foldl,
            hp1, hp2, hp3, hp4, hp5, hp6]
        | false =>
          simp [rulePass, PREFIX_CHANGES, ruleCond, List.filter, List.find?, List.foldl,
            hp1, hp2, hp3, hp4, hp5, hp6]
      | false =>
        have hp5 : startsWithL ("https:\\\\".data) (lowerL u) = false := by
          cases hc : startsWithL ("https:\\\\".data) (lowerL u) with
          | false => rfl
          | true =>
            rw [startsWithL_trans (by decide) hc] at hp3
            exact absurd hp3 (by simp)
        cases hp4 : startsWithL ("http:\\".data) (lowerL u) with
        | true =>
          cases hp6 : startsWithL ("http:\\\\".data) (lowerL u) with
          | true =>
            simp [rulePass, PREFIX_CHANGES, ruleCond, List.filter, List.find?, List.foldl,
              hp1, hp2, hp3, hp4, hp5, hp6]
          | false =>
            simp [rulePass, PREFIX_CHANGES, ruleCond, List.filter, List.find?, List.foldl,
              hp1, hp2, hp3, hp4, hp5, hp6]
        | false =>
          have hp6 : startsWithL ("http:\\\\".data) (lowerL u) = false := by
            cases hc : startsWithL ("http:\\\\".data) (lowerL u) with
            | false => rfl
            | true =>
              rw [startsWithL_trans (by decide) hc] at hp4
              exact absurd hp4 (by simp)
          simp [rulePass, PREFIX_CHANGES, ruleCond, List.filter, List.find?, List.foldl,
            hp1, hp2, hp3, hp4, hp5, hp6]
